import Mathlib

/-!
Verification development for the nft-trading-solana program.

The definitions below are a shallow embedding of the Rust sources under
src/src/program-rust/src (state.rs, instruction.rs, processor.rs, error.rs).
Bytes are modelled as Fin 256, public keys as byte lists, u64 values as Nat
with explicit wrap-around (mod 2 ^ 64) exactly where the Rust code performs
unchecked u64 arithmetic, and fallible operations return Except.
-/

abbrev Byte := Fin 256

abbrev Pubkey := List Byte

/-- Modulus of the 64-bit machine integers used for lamport balances. -/
def U64MOD : Nat := 2 ^ 64

/-- Wrapping 64-bit addition, as performed by unchecked u64 `+` in release
builds. -/
def addU64 (a b : Nat) : Nat := (a + b) % U64MOD

/-- Wrapping 64-bit subtraction, as performed by unchecked u64 `-` in release
builds. -/
def subU64 (a b : Nat) : Nat := (a + U64MOD - b % U64MOD) % U64MOD

/-- Big-endian byte encoding of a natural number into `w` bytes; for `w = 8`
this is `u64::to_be_bytes`. -/
def natToBE (w : Nat) (n : Nat) : List Byte :=
  match w with
  | 0 => []
  | Nat.succ w2 => natToBE w2 (n / 256) ++ [⟨n % 256, by omega⟩]

/-- Big-endian byte decoding, as `u64::from_be_bytes` on an 8-byte slice. -/
def beToNat (bs : List Byte) : Nat :=
  bs.foldl (fun acc b => acc * 256 + b.val) 0

theorem natToBE_length (w n : Nat) : (natToBE w n).length = w := by
  induction w generalizing n with
  | zero => rfl
  | succ w2 ih => simp [natToBE, ih]

theorem beToNat_concat (bs : List Byte) (b : Byte) :
    beToNat (bs ++ [b]) = beToNat bs * 256 + b.val := by
  simp [beToNat, List.foldl_append]

theorem beToNat_natToBE (w n : Nat) : beToNat (natToBE w n) = n % 256 ^ w := by
  induction w generalizing n with
  | zero => simp [natToBE, beToNat, Nat.mod_one]
  | succ w2 ih =>
    have hmm : n % (256 ^ w2 * 256) = n % 256 + 256 * (n / 256 % 256 ^ w2) := by
      rw [mul_comm]; exact Nat.mod_mul
    calc beToNat (natToBE w2 (n / 256) ++ [⟨n % 256, by omega⟩])
        = beToNat (natToBE w2 (n / 256)) * 256 + n % 256 := beToNat_concat _ _
      _ = (n / 256 % 256 ^ w2) * 256 + n % 256 := by rw [ih]
      _ = n % 256 ^ (w2 + 1) := by rw [pow_succ, hmm]; omega

theorem beToNat_natToBE_of_lt {w n : Nat} (h : n < 256 ^ w) :
    beToNat (natToBE w n) = n := by
  rw [beToNat_natToBE, Nat.mod_eq_of_lt h]

theorem beToNat_lt (bs : List Byte) : beToNat bs < 256 ^ bs.length := by
  induction bs using List.reverseRecOn with
  | nil => simp [beToNat]
  | append_singleton xs b ih =>
    rw [beToNat_concat]
    simp only [List.length_append, List.length_singleton]
    have hb : b.val < 256 := b.isLt
    have : 256 ^ (xs.length + 1) = 256 ^ xs.length * 256 := pow_succ 256 xs.length
    omega

theorem take_append_of_length {α : Type} (l1 l2 : List α) (n : Nat)
    (h : l1.length = n) : (l1 ++ l2).take n = l1 :=
  List.take_left' h

theorem drop_append_of_length {α : Type} (l1 l2 : List α) (n : Nat)
    (h : l1.length = n) : (l1 ++ l2).drop n = l2 :=
  List.drop_left' h

/-- Errors surfaced by the program, mirroring solana ProgramError together
with the custom error domain of error.rs (the `custom` codes are the NFTError
discriminants: 0 InvalidAuthority, 1 InvalidInstructionData,
2 InvalidPlatformFee, 3 InvalidInstruction, 4 FailedToUnpackU64). -/
inductive ProgramError where
  | missingRequiredSignature
  | invalidAccountData
  | invalidInstructionData
  | uninitializedAccount
  | custom (code : Nat)
deriving DecidableEq, Repr

def nftInvalidAuthority : ProgramError := .custom 0
def nftInvalidInstructionData : ProgramError := .custom 1
def nftInvalidPlatformFee : ProgramError := .custom 2
def nftInvalidInstruction : ProgramError := .custom 3
def nftFailedToUnpackU64 : ProgramError := .custom 4

/-- Boolean view of an Except outcome: true exactly on the Ok branch. -/
def resultOk {α : Type} : Except ProgramError α → Bool
  | .ok _ => true
  | .error _ => false

/-- Decoder of a one-byte boolean field, mirroring the
`match b { [0] => false, [1] => true, _ => Err(InvalidAccountData) }`
pattern of state.rs. -/
def byteToBool (bs : List Byte) : Except ProgramError Bool :=
  if bs = [(0 : Byte)] then .ok false
  else if bs = [(1 : Byte)] then .ok true
  else .error ProgramError.invalidAccountData

/-- Encoding of a boolean as one byte, mirroring `b as u8`. -/
def boolByte (b : Bool) : Byte := if b then 1 else 0

/-- PlatformState record of state.rs: platform configuration. -/
structure PlatformState where
  is_initialized : Bool
  authority : Pubkey
  platform_fee : Nat
  nonce : Nat
deriving DecidableEq, Repr

/-- Total packed size of PlatformState (STATESIZE in state.rs). -/
def STATESIZE : Nat := 49

/-- Total packed size of ListEscrowState (LISTESCROWSTATE in state.rs). -/
def LISTESCROWSTATE : Nat := 105

/-- Total packed size of BidEscrowState (BIDESCROWSTATE in state.rs). -/
def BIDESCROWSTATE : Nat := 72

/-- PlatformState::pack_into_slice: 1 byte flag, 32 byte authority,
8 byte big-endian fee, 8 byte big-endian nonce. -/
def PlatformState.pack_into_slice (s : PlatformState) : List Byte :=
  [boolByte s.is_initialized] ++ s.authority
    ++ natToBE 8 s.platform_fee ++ natToBE 8 s.nonce

/-- PlatformState::unpack_from_slice: sequential split into 1, 32, 8, 8 byte
fields (array_refs), rejecting a flag byte other than 0 or 1. -/
def PlatformState.unpack_from_slice (src : List Byte) :
    Except ProgramError PlatformState :=
  match byteToBool (src.take 1) with
  | .error e => .error e
  | .ok flag =>
    let r1 := src.drop 1
    .ok { is_initialized := flag
          authority := r1.take 32
          platform_fee := beToNat ((r1.drop 32).take 8)
          nonce := beToNat (((r1.drop 32).drop 8).take 8) }

/-- Pack::unpack_unchecked for PlatformState: the trait wrapper first rejects
any input whose length is not exactly LEN, then defers to unpack_from_slice.
The wrapper body lives in the solana_program dependency; it is modelled here
with the standard fixed semantics the spec describes. -/
def PlatformState.unpack_unchecked (src : List Byte) :
    Except ProgramError PlatformState :=
  if src.length = STATESIZE then PlatformState.unpack_from_slice src
  else .error ProgramError.invalidAccountData

/-- ListEscrowState record of state.rs: one listing escrow. -/
structure ListEscrowState where
  lister : Pubkey
  mint : Pubkey
  amount : Nat
  success : Bool
  successful_buyer : Pubkey
deriving DecidableEq, Repr

/-- ListEscrowState::pack_into_slice: 32 byte lister, 32 byte mint,
8 byte big-endian amount, 1 byte success flag, 32 byte buyer. -/
def ListEscrowState.pack_into_slice (s : ListEscrowState) : List Byte :=
  s.lister ++ s.mint ++ natToBE 8 s.amount
    ++ [boolByte s.success] ++ s.successful_buyer

/-- ListEscrowState::unpack_from_slice: sequential split into 32, 32, 8, 1, 32
byte fields, rejecting a success byte other than 0 or 1. -/
def ListEscrowState.unpack_from_slice (src : List Byte) :
    Except ProgramError ListEscrowState :=
  let r1 := src.drop 32
  let r2 := r1.drop 32
  let r3 := r2.drop 8
  match byteToBool (r3.take 1) with
  | .error e => .error e
  | .ok flag =>
    .ok { lister := src.take 32
          mint := r1.take 32
          amount := beToNat (r2.take 8)
          success := flag
          successful_buyer := (r3.drop 1).take 32 }

/-- Pack::unpack_unchecked for ListEscrowState (exact-length guard of the
trait wrapper, then unpack_from_slice). -/
def ListEscrowState.unpack_unchecked (src : List Byte) :
    Except ProgramError ListEscrowState :=
  if src.length = LISTESCROWSTATE then ListEscrowState.unpack_from_slice src
  else .error ProgramError.invalidAccountData

/-- BidEscrowState record of state.rs: one bid escrow. -/
structure BidEscrowState where
  bidder : Pubkey
  mint : Pubkey
  amount : Nat
deriving DecidableEq, Repr

/-- BidEscrowState::pack_into_slice: 32 byte bidder, 32 byte mint,
8 byte big-endian amount. -/
def BidEscrowState.pack_into_slice (s : BidEscrowState) : List Byte :=
  s.bidder ++ s.mint ++ natToBE 8 s.amount

/-- BidEscrowState::unpack_from_slice: sequential split into 32, 32, 8 byte
fields; this record has no boolean field. -/
def BidEscrowState.unpack_from_slice (src : List Byte) :
    Except ProgramError BidEscrowState :=
  let r1 := src.drop 32
  .ok { bidder := src.take 32
        mint := r1.take 32
        amount := beToNat ((r1.drop 32).take 8) }

/-- Pack::unpack_unchecked for BidEscrowState (exact-length guard of the
trait wrapper, then unpack_from_slice). -/
def BidEscrowState.unpack_unchecked (src : List Byte) :
    Except ProgramError BidEscrowState :=
  if src.length = BIDESCROWSTATE then BidEscrowState.unpack_from_slice src
  else .error ProgramError.invalidAccountData

/-- NFTInstruction of instruction.rs: the ten tagged operations. -/
inductive NFTInstruction where
  | initPlatform (authority : Pubkey) (platform_fee : Nat)
  | changeAuthority (authority : Pubkey)
  | changeFee (platform_fee : Nat)
  | list (amount : Nat)
  | deList
  | bid (amount : Nat)
  | withdrawBid
  | acceptBid
  | withdrawNFTOnSuccess
  | refundUser
deriving DecidableEq, Repr

/-- NFTInstruction::unpack_amount: read the first 8 bytes as a big-endian u64,
failing with FailedToUnpackU64 when fewer than 8 bytes remain. -/
def NFTInstruction.unpack_amount (input : List Byte) :
    Except ProgramError Nat :=
  if input.length < 8 then .error nftFailedToUnpackU64
  else .ok (beToNat (input.take 8))

/-- NFTInstruction::unpack of instruction.rs: split off the opcode byte and
decode the fixed-width fields of each opcode.  Opcodes 4, 6, 7, 8 and 9 carry
no fields and, as in the source, do not inspect the remaining bytes. -/
def NFTInstruction.unpack (input : List Byte) :
    Except ProgramError NFTInstruction :=
  match input with
  | [] => .error nftInvalidInstruction
  | tag :: rest =>
    if tag.val = 0 then
      if rest.length < 32 then .error nftInvalidAuthority
      else
        let authority := rest.take 32
        let r2 := rest.drop 32
        if r2.length = 8 then
          match NFTInstruction.unpack_amount r2 with
          | .error e => .error e
          | .ok fee => .ok (.initPlatform authority fee)
        else .error nftInvalidPlatformFee
    else if tag.val = 1 then
      if rest.length = 32 then .ok (.changeAuthority (rest.take 32))
      else .error nftInvalidAuthority
    else if tag.val = 2 then
      if rest.length = 8 then
        match NFTInstruction.unpack_amount rest with
        | .error e => .error e
        | .ok fee => .ok (.changeFee fee)
      else .error nftInvalidInstructionData
    else if tag.val = 3 then
      if rest.length = 8 then
        match NFTInstruction.unpack_amount rest with
        | .error e => .error e
        | .ok amount => .ok (.list amount)
      else .error nftInvalidInstructionData
    else if tag.val = 4 then .ok .deList
    else if tag.val = 5 then
      if rest.length = 8 then
        match NFTInstruction.unpack_amount rest with
        | .error e => .error e
        | .ok amount => .ok (.bid amount)
      else .error nftInvalidInstructionData
    else if tag.val = 6 then .ok .withdrawBid
    else if tag.val = 7 then .ok .acceptBid
    else if tag.val = 8 then .ok .withdrawNFTOnSuccess
    else if tag.val = 9 then .ok .refundUser
    else .error nftInvalidInstruction

/-- Account as seen by the processor: address, lamport balance, data bytes,
owning program and signer flag. -/
structure AccountInfo where
  key : Pubkey
  lamports : Nat
  data : List Byte
  owner : Pubkey
  is_signer : Bool
deriving DecidableEq, Repr

/-- Seed byte strings used by Pubkey::find_program_address in processor.rs. -/
def seedPlatform : List Byte := [80, 108, 97, 116, 102, 111, 114, 109]

def seedState : List Byte := [83, 116, 97, 116, 101]

def seedVault : List Byte := [86, 97, 117, 108, 116]

def seedList : List Byte := [76, 105, 115, 116]

def seedBid : List Byte := [66, 105, 100]

/-- Type of the address-derivation service: find_program_address for a fixed
program id, abstracted as a function from the seed tuple to the derived
address.  The processor only ever compares derived addresses with supplied
account keys, so every theorem below is parametric in this function. -/
abbrev DeriveFn := List (List Byte) → Pubkey

/-- Token-account fields the processor reads.  Modelled from the spec: the
asset-custody record layout belongs to the external SPL token library, which
is outside this repository; only the fixed 165-byte length guard and the two
fields the processor consumes (mint at bytes 0..32, owner at bytes 32..64)
are represented. -/
structure TokenAccount where
  mint : Pubkey
  owner : Pubkey
deriving DecidableEq, Repr

/-- Modelled from the spec: spl_token::state::Account::unpack_unchecked,
restricted to the length guard and the two fields used by the processor. -/
def splAccountUnpack (src : List Byte) : Except ProgramError TokenAccount :=
  if src.length = 165 then
    .ok { mint := src.take 32, owner := (src.drop 32).take 32 }
  else .error ProgramError.invalidAccountData

/-- Accounts consumed by process_delist, in positional order: signer, token
account, mint, listing escrow state, listing escrow vault, program account,
token program account. -/
structure DelistAccounts where
  signer : AccountInfo
  token_account : AccountInfo
  mint : AccountInfo
  escrow_state : AccountInfo
  escrow_vault : AccountInfo
  program : AccountInfo
  token_program : AccountInfo
deriving DecidableEq, Repr

/-- Outcome of a successful process_delist: final lamports of the escrow
accounts and of the signer, and the destination of the returned asset.  The
token close CPI first moves the vault lamports into the state account, then
the state balance (including them) is handed to the signer. -/
structure DelistResult where
  escrow_state_lamports : Nat
  escrow_vault_lamports : Nat
  signer_lamports : Nat
  nft_destination : Pubkey
deriving DecidableEq, Repr

/-- Processor::process_delist of processor.rs.  Checks, in source order:
signer flag, token-account owner, mint owner, program id, token program id,
derived state address, derived vault address; then transfers the asset from
the vault back to the token account, closes the vault into the state account,
and drains the state account to the signer.  The listing record data is never
read, so the settled flag is never consulted. -/
def Processor.process_delist (derive : DeriveFn)
    (programId splTokenId : Pubkey) (a : DelistAccounts) :
    Except ProgramError DelistResult :=
  if a.signer.is_signer then
    match splAccountUnpack a.token_account.data with
    | .error e => .error e
    | .ok token_account_data =>
      if token_account_data.owner = a.signer.key then
        if a.mint.owner = splTokenId then
          if a.program.key = programId then
            if a.token_program.key = splTokenId then
              if a.escrow_state.key
                  = derive [a.mint.key, a.signer.key, seedList, seedState] then
                if a.escrow_vault.key
                    = derive [a.mint.key, a.signer.key, seedList, seedVault] then
                  .ok { escrow_state_lamports := 0
                        escrow_vault_lamports := 0
                        signer_lamports :=
                          addU64 a.signer.lamports
                            (addU64 a.escrow_state.lamports
                              a.escrow_vault.lamports)
                        nft_destination := a.token_account.key }
                else .error ProgramError.invalidAccountData
              else .error ProgramError.invalidAccountData
            else .error ProgramError.invalidAccountData
          else .error ProgramError.invalidAccountData
        else .error ProgramError.invalidAccountData
      else .error ProgramError.invalidAccountData
  else .error ProgramError.missingRequiredSignature

/-- Accounts consumed by process_withdraw_bid, in positional order: signer,
mint, bid escrow state, bid escrow vault, program account. -/
structure WithdrawBidAccounts where
  signer : AccountInfo
  mint : AccountInfo
  escrow_state : AccountInfo
  escrow_vault : AccountInfo
  program : AccountInfo
deriving DecidableEq, Repr

/-- Outcome of a successful process_withdraw_bid. -/
structure WithdrawBidResult where
  escrow_state_lamports : Nat
  escrow_vault_lamports : Nat
  signer_lamports : Nat
deriving DecidableEq, Repr

/-- Processor::process_withdraw_bid of processor.rs: after the signer, mint
owner, program id and derived address checks, both bid escrow accounts are
drained to zero and their whole balance is credited to the signer. -/
def Processor.process_withdraw_bid (derive : DeriveFn)
    (programId splTokenId : Pubkey) (a : WithdrawBidAccounts) :
    Except ProgramError WithdrawBidResult :=
  if a.signer.is_signer then
    if a.mint.owner = splTokenId then
      if a.program.key = programId then
        if a.escrow_state.key
            = derive [a.mint.key, a.signer.key, seedBid, seedState] then
          if a.escrow_vault.key
              = derive [a.mint.key, a.signer.key, seedBid, seedVault] then
            .ok { escrow_state_lamports := 0
                  escrow_vault_lamports := 0
                  signer_lamports :=
                    addU64 a.signer.lamports
                      (addU64 a.escrow_state.lamports
                        a.escrow_vault.lamports) }
          else .error ProgramError.invalidAccountData
        else .error ProgramError.invalidAccountData
      else .error ProgramError.invalidAccountData
    else .error ProgramError.invalidAccountData
  else .error ProgramError.missingRequiredSignature

/-- Accounts consumed by process_accept_bid, in positional order: signer,
mint, bidder, bid escrow state, bid escrow vault, listing escrow state,
listing escrow vault.  No program, system or platform account is taken. -/
structure AcceptBidAccounts where
  signer : AccountInfo
  mint : AccountInfo
  bidder : AccountInfo
  bid_state : AccountInfo
  bid_vault : AccountInfo
  list_state : AccountInfo
  list_vault : AccountInfo
deriving DecidableEq, Repr

/-- Outcome of a successful process_accept_bid: the rewritten listing record
bytes, the drained bid escrow accounts, and the credited balances. -/
structure AcceptBidResult where
  list_state_data : List Byte
  bid_state_lamports : Nat
  bid_vault_lamports : Nat
  signer_lamports : Nat
  bidder_lamports : Nat
deriving DecidableEq, Repr

/-- Processor::process_accept_bid of processor.rs.  Checks, in source order:
signer flag, mint owner, derived bid state and vault addresses, derived
listing state and vault addresses, listing record lister equals signer, bid
record bidder equals the bidder account; the success flag of the listing
record is never consulted.  Effects: the listing record is rewritten with the
bid amount, success set to true and the bidder as buyer; both bid escrow
accounts are drained; the signer is credited the bid amount and the bidder is
credited the remaining total via an unchecked u64 subtraction. -/
def Processor.process_accept_bid (derive : DeriveFn) (splTokenId : Pubkey)
    (a : AcceptBidAccounts) : Except ProgramError AcceptBidResult :=
  if a.signer.is_signer then
    if a.mint.owner = splTokenId then
      if a.bid_state.key
          = derive [a.mint.key, a.bidder.key, seedBid, seedState] then
        if a.bid_vault.key
            = derive [a.mint.key, a.bidder.key, seedBid, seedVault] then
          if a.list_state.key
              = derive [a.mint.key, a.signer.key, seedList, seedState] then
            if a.list_vault.key
                = derive [a.mint.key, a.signer.key, seedList, seedVault] then
              match ListEscrowState.unpack_unchecked a.list_state.data with
              | .error e => .error e
              | .ok list_state =>
                if list_state.lister = a.signer.key then
                  match BidEscrowState.unpack_unchecked a.bid_state.data with
                  | .error e => .error e
                  | .ok bid_state =>
                    if bid_state.bidder = a.bidder.key then
                      let new_list : ListEscrowState :=
                        { list_state with
                            amount := bid_state.amount
                            success := true
                            successful_buyer := a.bidder.key }
                      let total :=
                        addU64 a.bid_vault.lamports a.bid_state.lamports
                      .ok { list_state_data :=
                              ListEscrowState.pack_into_slice new_list
                            bid_state_lamports := 0
                            bid_vault_lamports := 0
                            signer_lamports :=
                              addU64 a.signer.lamports bid_state.amount
                            bidder_lamports :=
                              addU64 a.bidder.lamports
                                (subU64 total bid_state.amount) }
                    else .error ProgramError.invalidAccountData
                else .error ProgramError.invalidAccountData
            else .error ProgramError.invalidAccountData
          else .error ProgramError.invalidAccountData
        else .error ProgramError.invalidAccountData
      else .error ProgramError.invalidAccountData
    else .error ProgramError.invalidAccountData
  else .error ProgramError.missingRequiredSignature

/-- Accounts consumed by process_withdraw_nft_on_success, in positional
order: signer (the claiming buyer), token account, mint, lister, listing
escrow state, listing escrow vault, token program account. -/
structure WithdrawNftAccounts where
  signer : AccountInfo
  token_account : AccountInfo
  mint : AccountInfo
  lister : AccountInfo
  list_state : AccountInfo
  list_vault : AccountInfo
  token_program : AccountInfo
deriving DecidableEq, Repr

/-- Outcome of a successful process_withdraw_nft_on_success. -/
structure WithdrawNftResult where
  list_state_lamports : Nat
  list_vault_lamports : Nat
  lister_lamports : Nat
  nft_destination : Pubkey
deriving DecidableEq, Repr

/-- Processor::process_withdraw_nft_on_success of processor.rs (the
ClaimAssetOnSuccess operation).  Checks, in source order: signer flag,
token-account owner, mint owner, token-account mint, derived listing state
and vault addresses, token program id, listing record lister matches, the
success flag is set, and the recorded buyer equals the signer.  Effects: the
asset moves from the listing vault to the token account of the signer, the
vault is closed into the state account, and the state balance goes to the
lister. -/
def Processor.process_withdraw_nft_on_success (derive : DeriveFn)
    (splTokenId : Pubkey) (a : WithdrawNftAccounts) :
    Except ProgramError WithdrawNftResult :=
  if a.signer.is_signer then
    match splAccountUnpack a.token_account.data with
    | .error e => .error e
    | .ok token_account_data =>
      if token_account_data.owner = a.signer.key then
        if a.mint.owner = splTokenId then
          if token_account_data.mint = a.mint.key then
            if a.list_state.key
                = derive [a.mint.key, a.lister.key, seedList, seedState] then
              if a.list_vault.key
                  = derive [a.mint.key, a.lister.key, seedList, seedVault] then
                if a.token_program.key = splTokenId then
                  match ListEscrowState.unpack_unchecked a.list_state.data with
                  | .error e => .error e
                  | .ok list_state =>
                    if list_state.lister = a.lister.key then
                      if list_state.success then
                        if list_state.successful_buyer = a.signer.key then
                          .ok { list_state_lamports := 0
                                list_vault_lamports := 0
                                lister_lamports :=
                                  addU64 a.lister.lamports
                                    (addU64 a.list_state.lamports
                                      a.list_vault.lamports)
                                nft_destination := a.token_account.key }
                        else .error ProgramError.invalidAccountData
                      else .error ProgramError.invalidAccountData
                    else .error ProgramError.invalidAccountData
                else .error ProgramError.invalidAccountData
              else .error ProgramError.invalidAccountData
            else .error ProgramError.invalidAccountData
          else .error ProgramError.invalidAccountData
        else .error ProgramError.invalidAccountData
      else .error ProgramError.invalidAccountData
  else .error ProgramError.missingRequiredSignature

/-- Accounts consumed by process_refund, in positional order: signer (the
platform authority), mint, bidder, platform state, bid escrow state, bid
escrow vault. -/
structure RefundAccounts where
  signer : AccountInfo
  mint : AccountInfo
  bidder : AccountInfo
  platform_state : AccountInfo
  bid_state : AccountInfo
  bid_vault : AccountInfo
deriving DecidableEq, Repr

/-- Outcome of a successful process_refund. -/
structure RefundResult where
  bid_state_lamports : Nat
  bid_vault_lamports : Nat
  bidder_lamports : Nat
deriving DecidableEq, Repr

/-- Processor::process_refund of processor.rs (the RefundUser operation):
after the signer, mint owner, platform address, platform record and authority
checks and the derived bid address checks, both bid escrow accounts are
drained to zero and their whole balance is credited to the bidder account. -/
def Processor.process_refund (derive : DeriveFn) (splTokenId : Pubkey)
    (a : RefundAccounts) : Except ProgramError RefundResult :=
  if a.signer.is_signer then
    if a.mint.owner = splTokenId then
      if a.platform_state.key = derive [seedPlatform, seedState] then
        match PlatformState.unpack_unchecked a.platform_state.data with
        | .error e => .error e
        | .ok state_info =>
          if state_info.is_initialized then
            if state_info.authority = a.signer.key then
              if a.bid_state.key
                  = derive [a.mint.key, a.bidder.key, seedBid, seedState] then
                if a.bid_vault.key
                    = derive [a.mint.key, a.bidder.key, seedBid, seedVault] then
                  .ok { bid_state_lamports := 0
                        bid_vault_lamports := 0
                        bidder_lamports :=
                          addU64 a.bidder.lamports
                            (addU64 a.bid_state.lamports
                              a.bid_vault.lamports) }
                else .error ProgramError.invalidAccountData
              else .error ProgramError.invalidAccountData
            else .error nftInvalidAuthority
          else .error ProgramError.uninitializedAccount
      else .error ProgramError.invalidAccountData
    else .error ProgramError.invalidAccountData
  else .error ProgramError.missingRequiredSignature


theorem platform_pack_roundtrip (s : PlatformState)
    (h1 : s.authority.length = 32) (h2 : s.platform_fee < U64MOD)
    (h3 : s.nonce < U64MOD) :
    PlatformState.unpack_unchecked (PlatformState.pack_into_slice s)
      = .ok s := by
  obtain ⟨init, A, fee, nonce⟩ := s
  simp only at h1 h2 h3
  have hF : (natToBE 8 fee).length = 8 := natToBE_length 8 _
  have hN : (natToBE 8 nonce).length = 8 := natToBE_length 8 _
  have h256 : (256 : Nat) ^ 8 = U64MOD := by norm_num [U64MOD]
  have e1 : PlatformState.pack_into_slice ⟨init, A, fee, nonce⟩
      = [boolByte init] ++ (A ++ (natToBE 8 fee ++ natToBE 8 nonce)) := by
    simp [PlatformState.pack_into_slice, List.append_assoc]
  have ht1 : ([boolByte init]
      ++ (A ++ (natToBE 8 fee ++ natToBE 8 nonce))).take 1
      = [boolByte init] := take_append_of_length _ _ 1 (by simp)
  have hd1 : ([boolByte init]
      ++ (A ++ (natToBE 8 fee ++ natToBE 8 nonce))).drop 1
      = A ++ (natToBE 8 fee ++ natToBE 8 nonce) :=
    drop_append_of_length _ _ 1 (by simp)
  have ht32 : (A ++ (natToBE 8 fee ++ natToBE 8 nonce)).take 32 = A :=
    take_append_of_length _ _ 32 h1
  have hd32 : (A ++ (natToBE 8 fee ++ natToBE 8 nonce)).drop 32
      = natToBE 8 fee ++ natToBE 8 nonce := drop_append_of_length _ _ 32 h1
  have ht8 : (natToBE 8 fee ++ natToBE 8 nonce).take 8 = natToBE 8 fee :=
    take_append_of_length _ _ 8 hF
  have hd8 : (natToBE 8 fee ++ natToBE 8 nonce).drop 8 = natToBE 8 nonce :=
    drop_append_of_length _ _ 8 hF
  have htN : (natToBE 8 nonce).take 8 = natToBE 8 nonce := by
    rw [← hN]; exact List.take_length (natToBE 8 nonce)
  rw [e1]
  unfold PlatformState.unpack_unchecked
  rw [if_pos (by simp [STATESIZE, h1, hF, hN])]
  unfold PlatformState.unpack_from_slice
  simp only [ht1, hd1, ht32, hd32, ht8, hd8, htN]
  cases init <;>
    simp [byteToBool, boolByte, beToNat_natToBE_of_lt (h256 ▸ h2),
      beToNat_natToBE_of_lt (h256 ▸ h3)]

theorem list_escrow_pack_roundtrip (s : ListEscrowState)
    (h1 : s.lister.length = 32) (h2 : s.mint.length = 32)
    (h3 : s.amount < U64MOD) (h4 : s.successful_buyer.length = 32) :
    ListEscrowState.unpack_unchecked (ListEscrowState.pack_into_slice s)
      = .ok s := by
  obtain ⟨L, M, amt, suc, B⟩ := s
  simp only at h1 h2 h3 h4
  have hA : (natToBE 8 amt).length = 8 := natToBE_length 8 _
  have h256 : (256 : Nat) ^ 8 = U64MOD := by norm_num [U64MOD]
  have e1 : ListEscrowState.pack_into_slice ⟨L, M, amt, suc, B⟩
      = L ++ (M ++ (natToBE 8 amt ++ ([boolByte suc] ++ B))) := by
    simp [ListEscrowState.pack_into_slice, List.append_assoc]
  have ht32 : (L ++ (M ++ (natToBE 8 amt ++ ([boolByte suc] ++ B)))).take 32
      = L := take_append_of_length _ _ 32 h1
  have hd32 : (L ++ (M ++ (natToBE 8 amt ++ ([boolByte suc] ++ B)))).drop 32
      = M ++ (natToBE 8 amt ++ ([boolByte suc] ++ B)) :=
    drop_append_of_length _ _ 32 h1
  have ht32b : (M ++ (natToBE 8 amt ++ ([boolByte suc] ++ B))).take 32 = M :=
    take_append_of_length _ _ 32 h2
  have hd32b : (M ++ (natToBE 8 amt ++ ([boolByte suc] ++ B))).drop 32
      = natToBE 8 amt ++ ([boolByte suc] ++ B) :=
    drop_append_of_length _ _ 32 h2
  have ht8 : (natToBE 8 amt ++ ([boolByte suc] ++ B)).take 8 = natToBE 8 amt :=
    take_append_of_length _ _ 8 hA
  have hd8 : (natToBE 8 amt ++ ([boolByte suc] ++ B)).drop 8
      = [boolByte suc] ++ B := drop_append_of_length _ _ 8 hA
  have ht1 : ([boolByte suc] ++ B).take 1 = [boolByte suc] :=
    take_append_of_length _ _ 1 (by simp)
  have hd1 : ([boolByte suc] ++ B).drop 1 = B :=
    drop_append_of_length _ _ 1 (by simp)
  have htB : B.take 32 = B := by
    rw [← h4]; exact List.take_length B
  rw [e1]
  unfold ListEscrowState.unpack_unchecked
  rw [if_pos (by simp [LISTESCROWSTATE, h1, h2, hA, h4])]
  unfold ListEscrowState.unpack_from_slice
  simp only [ht32, hd32, ht32b, hd32b, ht8, hd8, ht1, hd1, htB]
  cases suc <;>
    simp [byteToBool, boolByte, beToNat_natToBE_of_lt (h256 ▸ h3)]

theorem bid_escrow_pack_roundtrip (s : BidEscrowState)
    (h1 : s.bidder.length = 32) (h2 : s.mint.length = 32)
    (h3 : s.amount < U64MOD) :
    BidEscrowState.unpack_unchecked (BidEscrowState.pack_into_slice s)
      = .ok s := by
  obtain ⟨D, M, amt⟩ := s
  simp only at h1 h2 h3
  have hA : (natToBE 8 amt).length = 8 := natToBE_length 8 _
  have h256 : (256 : Nat) ^ 8 = U64MOD := by norm_num [U64MOD]
  have e1 : BidEscrowState.pack_into_slice ⟨D, M, amt⟩
      = D ++ (M ++ natToBE 8 amt) := by
    simp [BidEscrowState.pack_into_slice, List.append_assoc]
  have ht32 : (D ++ (M ++ natToBE 8 amt)).take 32 = D :=
    take_append_of_length _ _ 32 h1
  have hd32 : (D ++ (M ++ natToBE 8 amt)).drop 32 = M ++ natToBE 8 amt :=
    drop_append_of_length _ _ 32 h1
  have ht32b : (M ++ natToBE 8 amt).take 32 = M :=
    take_append_of_length _ _ 32 h2
  have hd32b : (M ++ natToBE 8 amt).drop 32 = natToBE 8 amt :=
    drop_append_of_length _ _ 32 h2
  have htA : (natToBE 8 amt).take 8 = natToBE 8 amt := by
    rw [← hA]; exact List.take_length (natToBE 8 amt)
  rw [e1]
  unfold BidEscrowState.unpack_unchecked
  rw [if_pos (by simp [BIDESCROWSTATE, h1, h2, hA])]
  unfold BidEscrowState.unpack_from_slice
  simp only [ht32, hd32, ht32b, hd32b, htA]
  simp [beToNat_natToBE_of_lt (h256 ▸ h3)]

theorem Processor.withdraw_bid_ok (derive : DeriveFn)
    (programId splTokenId : Pubkey) (a : WithdrawBidAccounts)
    (r : WithdrawBidResult)
    (h : Processor.process_withdraw_bid derive programId splTokenId a
      = .ok r) :
    r = { escrow_state_lamports := 0
          escrow_vault_lamports := 0
          signer_lamports :=
            addU64 a.signer.lamports
              (addU64 a.escrow_state.lamports a.escrow_vault.lamports) } := by
  unfold Processor.process_withdraw_bid at h
  repeat' split at h
  all_goals try exact Except.noConfusion h
  injection h with h2
  exact h2.symm

theorem Processor.refund_ok (derive : DeriveFn) (splTokenId : Pubkey)
    (a : RefundAccounts) (r : RefundResult)
    (h : Processor.process_refund derive splTokenId a = .ok r) :
    ∃ state_info,
      PlatformState.unpack_unchecked a.platform_state.data = .ok state_info ∧
      state_info.is_initialized = true ∧
      state_info.authority = a.signer.key ∧
      r = { bid_state_lamports := 0
            bid_vault_lamports := 0
            bidder_lamports :=
              addU64 a.bidder.lamports
                (addU64 a.bid_state.lamports a.bid_vault.lamports) } := by
  unfold Processor.process_refund at h
  repeat' split at h
  all_goals try exact Except.noConfusion h
  injection h with h2
  subst h2
  exact ⟨_, by assumption, by assumption, by assumption, rfl⟩

theorem Processor.accept_bid_ok (derive : DeriveFn) (splTokenId : Pubkey)
    (a : AcceptBidAccounts) (r : AcceptBidResult)
    (h : Processor.process_accept_bid derive splTokenId a = .ok r) :
    ∃ list_state bid_state,
      ListEscrowState.unpack_unchecked a.list_state.data = .ok list_state ∧
      BidEscrowState.unpack_unchecked a.bid_state.data = .ok bid_state ∧
      list_state.lister = a.signer.key ∧
      bid_state.bidder = a.bidder.key ∧
      r = { list_state_data :=
              ListEscrowState.pack_into_slice
                { list_state with
                    amount := bid_state.amount
                    success := true
                    successful_buyer := a.bidder.key }
            bid_state_lamports := 0
            bid_vault_lamports := 0
            signer_lamports := addU64 a.signer.lamports bid_state.amount
            bidder_lamports :=
              addU64 a.bidder.lamports
                (subU64 (addU64 a.bid_vault.lamports a.bid_state.lamports)
                  bid_state.amount) } := by
  unfold Processor.process_accept_bid at h
  repeat' split at h
  all_goals try exact Except.noConfusion h
  injection h with h2
  subst h2
  exact ⟨_, _, by assumption, by assumption, by assumption, by assumption, rfl⟩

theorem Processor.withdraw_nft_ok (derive : DeriveFn) (splTokenId : Pubkey)
    (a : WithdrawNftAccounts) (r : WithdrawNftResult)
    (h : Processor.process_withdraw_nft_on_success derive splTokenId a
      = .ok r) :
    ∃ token_account_data list_state,
      splAccountUnpack a.token_account.data = .ok token_account_data ∧
      ListEscrowState.unpack_unchecked a.list_state.data = .ok list_state ∧
      token_account_data.owner = a.signer.key ∧
      token_account_data.mint = a.mint.key ∧
      list_state.lister = a.lister.key ∧
      list_state.success = true ∧
      list_state.successful_buyer = a.signer.key ∧
      r = { list_state_lamports := 0
            list_vault_lamports := 0
            lister_lamports :=
              addU64 a.lister.lamports
                (addU64 a.list_state.lamports a.list_vault.lamports)
            nft_destination := a.token_account.key } := by
  unfold Processor.process_withdraw_nft_on_success at h
  repeat' split at h
  all_goals try exact Except.noConfusion h
  injection h with h2
  subst h2
  exact ⟨_, _, by assumption, by assumption, by assumption, by assumption,
    by assumption, by assumption, by assumption, rfl⟩

theorem addU64_of_lt {a b : Nat} (h : a + b < U64MOD) : addU64 a b = a + b :=
  Nat.mod_eq_of_lt h

theorem addU64_lt (a b : Nat) : addU64 a b < U64MOD := by
  unfold addU64 U64MOD
  exact Nat.mod_lt _ (by norm_num)

theorem subU64_of_le {a b : Nat} (hb : b ≤ a) (ha : a < U64MOD) :
    subU64 a b = a - b := by
  unfold subU64
  have hbM : b % U64MOD = b := Nat.mod_eq_of_lt (lt_of_le_of_lt hb ha)
  rw [hbM]
  have e : a + U64MOD - b = a - b + U64MOD := by omega
  rw [e, Nat.add_mod_right]
  exact Nat.mod_eq_of_lt (by omega)

theorem subU64_of_lt {a b : Nat} (hab : a < b) (hb : b < U64MOD) :
    subU64 a b = a + U64MOD - b := by
  unfold subU64
  rw [Nat.mod_eq_of_lt hb]
  exact Nat.mod_eq_of_lt (by omega)

theorem BidEscrowState.unpack_amount_lt (src : List Byte) (b : BidEscrowState)
    (h : BidEscrowState.unpack_unchecked src = .ok b) : b.amount < U64MOD := by
  unfold BidEscrowState.unpack_unchecked at h
  split at h
  · rename_i hlen
    unfold BidEscrowState.unpack_from_slice at h
    injection h with e
    subst e
    have hl : (((src.drop 32).drop 32).take 8).length = 8 := by
      simp [List.length_take, List.length_drop, hlen, BIDESCROWSTATE]
    have hlt := beToNat_lt (((src.drop 32).drop 32).take 8)
    rw [hl] at hlt
    have h256 : (256 : Nat) ^ 8 = U64MOD := by norm_num [U64MOD]
    simp only
    omega
  · exact Except.noConfusion h

/-!
Concrete fixtures used by the closed evaluation theorems and witnesses.
The derivation function encodes the seed tuple by concatenation, which is
enough for concrete runs since the processor only compares derived addresses
against supplied account keys.
-/

def deriveTest : DeriveFn := fun seeds => seeds.flatten

def kSeller : Pubkey := List.replicate 32 1
def kBidder : Pubkey := List.replicate 32 2
def kMint : Pubkey := List.replicate 32 3
def kProgram : Pubkey := List.replicate 32 4
def kTokenProgram : Pubkey := List.replicate 32 5
def kBuyer : Pubkey := List.replicate 32 6
def kAuthority : Pubkey := List.replicate 32 8
def kTokenAcct : Pubkey := List.replicate 32 9
def kBuyerTokenAcct : Pubkey := List.replicate 32 10
def zeroKey : Pubkey := List.replicate 32 0

/-- Byte image of a 165-byte SPL token account with the given mint and
owner. -/
def tokenDataFor (mint owner : Pubkey) : List Byte :=
  mint ++ owner ++ List.replicate 101 0

/-- Listing record that has already been settled (success = true). -/
def settledListing : ListEscrowState :=
  { lister := kSeller, mint := kMint, amount := 100
    success := true, successful_buyer := kBuyer }

/-- Listing record that is live and unsettled (success = false). -/
def freshListing : ListEscrowState :=
  { lister := kSeller, mint := kMint, amount := 100
    success := false, successful_buyer := zeroKey }

/-- Bid record over 20 lamports. -/
def bidRecordA : BidEscrowState :=
  { bidder := kBidder, mint := kMint, amount := 20 }

/-- Bid record over 60 lamports, more than the escrow accounts hold in the
underflow fixture. -/
def bidRecordU : BidEscrowState :=
  { bidder := kBidder, mint := kMint, amount := 60 }

/-- Platform configuration record with kAuthority as authority. -/
def platformRecord : PlatformState :=
  { is_initialized := true, authority := kAuthority
    platform_fee := 3, nonce := 0 }

/-- DeList request by the seller on a listing whose record is settled. -/
def accsDelistSettled : DelistAccounts :=
  { signer := { key := kSeller, lamports := 10, data := []
                owner := zeroKey, is_signer := true }
    token_account := { key := kTokenAcct, lamports := 0
                       data := tokenDataFor kMint kSeller
                       owner := kTokenProgram, is_signer := false }
    mint := { key := kMint, lamports := 0, data := []
              owner := kTokenProgram, is_signer := false }
    escrow_state := { key := deriveTest [kMint, kSeller, seedList, seedState]
                      lamports := 7
                      data := ListEscrowState.pack_into_slice settledListing
                      owner := kProgram, is_signer := false }
    escrow_vault := { key := deriveTest [kMint, kSeller, seedList, seedVault]
                      lamports := 3, data := []
                      owner := kTokenProgram, is_signer := false }
    program := { key := kProgram, lamports := 0, data := []
                 owner := zeroKey, is_signer := false }
    token_program := { key := kTokenProgram, lamports := 0, data := []
                       owner := zeroKey, is_signer := false } }

/-- AcceptBid request by the seller against an already settled listing. -/
def accsAcceptSettled : AcceptBidAccounts :=
  { signer := { key := kSeller, lamports := 10, data := []
                owner := zeroKey, is_signer := true }
    mint := { key := kMint, lamports := 0, data := []
              owner := kTokenProgram, is_signer := false }
    bidder := { key := kBidder, lamports := 5, data := []
                owner := zeroKey, is_signer := false }
    bid_state := { key := deriveTest [kMint, kBidder, seedBid, seedState]
                   lamports := 30
                   data := BidEscrowState.pack_into_slice bidRecordA
                   owner := kProgram, is_signer := false }
    bid_vault := { key := deriveTest [kMint, kBidder, seedBid, seedVault]
                   lamports := 25, data := []
                   owner := kProgram, is_signer := false }
    list_state := { key := deriveTest [kMint, kSeller, seedList, seedState]
                    lamports := 7
                    data := ListEscrowState.pack_into_slice settledListing
                    owner := kProgram, is_signer := false }
    list_vault := { key := deriveTest [kMint, kSeller, seedList, seedVault]
                    lamports := 3, data := []
                    owner := kTokenProgram, is_signer := false } }

/-- AcceptBid request by the seller against a live listing. -/
def accsAccept : AcceptBidAccounts :=
  { accsAcceptSettled with
      list_state := { key := deriveTest [kMint, kSeller, seedList, seedState]
                      lamports := 7
                      data := ListEscrowState.pack_into_slice freshListing
                      owner := kProgram, is_signer := false } }

/-- AcceptBid request whose bid accounts hold less than the recorded bid
amount, triggering the unchecked subtraction underflow. -/
def accsAcceptUnder : AcceptBidAccounts :=
  { accsAccept with
      bid_state := { key := deriveTest [kMint, kBidder, seedBid, seedState]
                     lamports := 10
                     data := BidEscrowState.pack_into_slice bidRecordU
                     owner := kProgram, is_signer := false }
      bid_vault := { key := deriveTest [kMint, kBidder, seedBid, seedVault]
                     lamports := 5, data := []
                     owner := kProgram, is_signer := false } }

/-- WithdrawBid request by the bidder. -/
def accsWithdraw : WithdrawBidAccounts :=
  { signer := { key := kBidder, lamports := 10, data := []
                owner := zeroKey, is_signer := true }
    mint := { key := kMint, lamports := 0, data := []
              owner := kTokenProgram, is_signer := false }
    escrow_state := { key := deriveTest [kMint, kBidder, seedBid, seedState]
                      lamports := 30
                      data := BidEscrowState.pack_into_slice bidRecordA
                      owner := kProgram, is_signer := false }
    escrow_vault := { key := deriveTest [kMint, kBidder, seedBid, seedVault]
                      lamports := 25, data := []
                      owner := kProgram, is_signer := false }
    program := { key := kProgram, lamports := 0, data := []
                 owner := zeroKey, is_signer := false } }

/-- RefundUser request by the platform authority for kBidder. -/
def accsRefund : RefundAccounts :=
  { signer := { key := kAuthority, lamports := 0, data := []
                owner := zeroKey, is_signer := true }
    mint := { key := kMint, lamports := 0, data := []
              owner := kTokenProgram, is_signer := false }
    bidder := { key := kBidder, lamports := 5, data := []
                owner := zeroKey, is_signer := false }
    platform_state := { key := deriveTest [seedPlatform, seedState]
                        lamports := 1
                        data := PlatformState.pack_into_slice platformRecord
                        owner := kProgram, is_signer := false }
    bid_state := { key := deriveTest [kMint, kBidder, seedBid, seedState]
                   lamports := 30
                   data := BidEscrowState.pack_into_slice bidRecordA
                   owner := kProgram, is_signer := false }
    bid_vault := { key := deriveTest [kMint, kBidder, seedBid, seedVault]
                   lamports := 25, data := []
                   owner := kProgram, is_signer := false } }

/-- ClaimAssetOnSuccess request by the recorded buyer on a settled listing. -/
def accsClaim : WithdrawNftAccounts :=
  { signer := { key := kBuyer, lamports := 2, data := []
                owner := zeroKey, is_signer := true }
    token_account := { key := kBuyerTokenAcct, lamports := 0
                       data := tokenDataFor kMint kBuyer
                       owner := kTokenProgram, is_signer := false }
    mint := { key := kMint, lamports := 0, data := []
              owner := kTokenProgram, is_signer := false }
    lister := { key := kSeller, lamports := 4, data := []
                owner := zeroKey, is_signer := false }
    list_state := { key := deriveTest [kMint, kSeller, seedList, seedState]
                    lamports := 7
                    data := ListEscrowState.pack_into_slice settledListing
                    owner := kProgram, is_signer := false }
    list_vault := { key := deriveTest [kMint, kSeller, seedList, seedVault]
                    lamports := 3, data := []
                    owner := kTokenProgram, is_signer := false }
    token_program := { key := kTokenProgram, lamports := 0, data := []
                       owner := zeroKey, is_signer := false } }

/-- Result of a successful AcceptBid on the live fixture. -/
def rAccept : AcceptBidResult :=
  { list_state_data :=
      ListEscrowState.pack_into_slice
        { lister := kSeller, mint := kMint, amount := 20
          success := true, successful_buyer := kBidder }
    bid_state_lamports := 0
    bid_vault_lamports := 0
    signer_lamports := 30
    bidder_lamports := 40 }

/-- Result of a successful AcceptBid on the underflow fixture: the bidder is
credited the wrapped difference 15 + 2 ^ 64 - 60. -/
def rAcceptUnder : AcceptBidResult :=
  { list_state_data :=
      ListEscrowState.pack_into_slice
        { lister := kSeller, mint := kMint, amount := 60
          success := true, successful_buyer := kBidder }
    bid_state_lamports := 0
    bid_vault_lamports := 0
    signer_lamports := 70
    bidder_lamports := U64MOD - 40 }

theorem accept_run :
    Processor.process_accept_bid deriveTest kTokenProgram accsAccept
      = .ok rAccept := by
  rfl

theorem accept_under_run :
    Processor.process_accept_bid deriveTest kTokenProgram accsAcceptUnder
      = .ok rAcceptUnder := by
  rfl

theorem withdraw_run :
    Processor.process_withdraw_bid deriveTest kProgram kTokenProgram
      accsWithdraw
      = .ok { escrow_state_lamports := 0, escrow_vault_lamports := 0
              signer_lamports := 65 } := by
  rfl

theorem refund_run :
    Processor.process_refund deriveTest kTokenProgram accsRefund
      = .ok { bid_state_lamports := 0, bid_vault_lamports := 0
              bidder_lamports := 60 } := by
  rfl

set_option maxRecDepth 8192 in
theorem claim_run :
    Processor.process_withdraw_nft_on_success deriveTest kTokenProgram
      accsClaim
      = .ok { list_state_lamports := 0, list_vault_lamports := 0
              lister_lamports := 14, nft_destination := kBuyerTokenAcct } := by
  rfl

set_option maxRecDepth 8192 in
/-- Claim C1: the spec requires DeList to fail whenever the listing record
has settled = true.  The embedded process_delist never reads the listing
record, so a seller-signed DeList on a settled listing succeeds: evaluating
it on a request whose listing state bytes encode success = true yields Ok
(returning the asset and the whole escrow balance to the seller), refuting
the guard the spec describes. -/
theorem c1_delist_succeeds_on_settled_listing :
    Processor.process_delist deriveTest kProgram kTokenProgram
      accsDelistSettled
      = .ok { escrow_state_lamports := 0, escrow_vault_lamports := 0
              signer_lamports := 20, nft_destination := kTokenAcct } := by
  rfl

/-- Claim C2: the spec requires AcceptBid to fail when the listing is
already settled.  The embedded process_accept_bid checks the lister but
never the success flag, so a seller-signed AcceptBid on an already settled
listing succeeds and re-settles it to the new bidder: evaluating it on a
request whose listing state bytes encode success = true (buyer kBuyer)
yields Ok with the buyer overwritten to kBidder. -/
theorem c2_accept_bid_succeeds_on_settled_listing :
    Processor.process_accept_bid deriveTest kTokenProgram accsAcceptSettled
      = .ok { list_state_data :=
                ListEscrowState.pack_into_slice
                  { lister := kSeller, mint := kMint, amount := 20
                    success := true, successful_buyer := kBidder }
              bid_state_lamports := 0
              bid_vault_lamports := 0
              signer_lamports := 30
              bidder_lamports := 40 } := by
  rfl

/-- Claim C6: for every record of each of the three kinds whose field values
are valid (32-byte addresses, amounts within u64 range), unpacking the
packed bytes returns exactly the original record. -/
theorem c6_record_roundtrip :
    (∀ s : PlatformState, s.authority.length = 32 →
       s.platform_fee < U64MOD → s.nonce < U64MOD →
       PlatformState.unpack_unchecked (PlatformState.pack_into_slice s)
         = .ok s) ∧
    (∀ s : ListEscrowState, s.lister.length = 32 → s.mint.length = 32 →
       s.amount < U64MOD → s.successful_buyer.length = 32 →
       ListEscrowState.unpack_unchecked (ListEscrowState.pack_into_slice s)
         = .ok s) ∧
    (∀ s : BidEscrowState, s.bidder.length = 32 → s.mint.length = 32 →
       s.amount < U64MOD →
       BidEscrowState.unpack_unchecked (BidEscrowState.pack_into_slice s)
         = .ok s) :=
  ⟨platform_pack_roundtrip, list_escrow_pack_roundtrip,
    bid_escrow_pack_roundtrip⟩

theorem c6_record_roundtrip_witness :
    PlatformState.unpack_unchecked
        (PlatformState.pack_into_slice platformRecord) = .ok platformRecord ∧
    ListEscrowState.unpack_unchecked
        (ListEscrowState.pack_into_slice settledListing)
      = .ok settledListing ∧
    BidEscrowState.unpack_unchecked
        (BidEscrowState.pack_into_slice bidRecordA) = .ok bidRecordA :=
  ⟨c6_record_roundtrip.1 platformRecord (by decide) (by decide) (by decide),
    c6_record_roundtrip.2.1 settledListing (by decide) (by decide)
      (by decide) (by decide),
    c6_record_roundtrip.2.2 bidRecordA (by decide) (by decide) (by decide)⟩

/-- Claim C8: record unpack rejects every input whose length is not exactly
the fixed record size (49, 105 or 72 bytes), and rejects any buffer whose
boolean field byte is neither 0 nor 1 (the flag byte at offset 0 for the
platform record, the success byte at offset 72 for the listing record; the
bid record has no boolean field). -/
theorem c8_unpack_rejects_bad_length_and_bool (data : List Byte) :
    (data.length ≠ 49 →
       resultOk (PlatformState.unpack_unchecked data) = false) ∧
    (data.length ≠ 105 →
       resultOk (ListEscrowState.unpack_unchecked data) = false) ∧
    (data.length ≠ 72 →
       resultOk (BidEscrowState.unpack_unchecked data) = false) ∧
    (data.take 1 ≠ [(0 : Byte)] → data.take 1 ≠ [(1 : Byte)] →
       resultOk (PlatformState.unpack_unchecked data) = false) ∧
    ((data.drop 72).take 1 ≠ [(0 : Byte)] →
       (data.drop 72).take 1 ≠ [(1 : Byte)] →
       resultOk (ListEscrowState.unpack_unchecked data) = false) := by
  refine ⟨?_, ?_, ?_, ?_, ?_⟩
  · intro h
    unfold PlatformState.unpack_unchecked
    rw [if_neg (by simpa [STATESIZE] using h)]
    rfl
  · intro h
    unfold ListEscrowState.unpack_unchecked
    rw [if_neg (by simpa [LISTESCROWSTATE] using h)]
    rfl
  · intro h
    unfold BidEscrowState.unpack_unchecked
    rw [if_neg (by simpa [BIDESCROWSTATE] using h)]
    rfl
  · intro h0 h1
    have hbb : byteToBool (data.take 1)
        = .error ProgramError.invalidAccountData := by
      unfold byteToBool
      rw [if_neg h0, if_neg h1]
    unfold PlatformState.unpack_unchecked
    split
    · unfold PlatformState.unpack_from_slice
      rw [hbb]
      rfl
    · rfl
  · intro h0 h1
    have hbb : byteToBool ((data.drop 72).take 1)
        = .error ProgramError.invalidAccountData := by
      unfold byteToBool
      rw [if_neg h0, if_neg h1]
    unfold ListEscrowState.unpack_unchecked
    split
    · unfold ListEscrowState.unpack_from_slice
      simp only [List.drop_drop]
      norm_num
      rw [hbb]
      rfl
    · rfl

theorem c8_unpack_rejects_witness :
    resultOk (PlatformState.unpack_unchecked (List.replicate 48 0)) = false ∧
    resultOk (ListEscrowState.unpack_unchecked (List.replicate 104 0))
      = false ∧
    resultOk (BidEscrowState.unpack_unchecked (List.replicate 71 0))
      = false ∧
    resultOk (PlatformState.unpack_unchecked
        ((2 : Byte) :: List.replicate 48 0)) = false ∧
    resultOk (ListEscrowState.unpack_unchecked
        (List.replicate 72 0 ++ ((2 : Byte) :: List.replicate 32 0)))
      = false :=
  ⟨(c8_unpack_rejects_bad_length_and_bool (List.replicate 48 0)).1
      (by decide),
    (c8_unpack_rejects_bad_length_and_bool (List.replicate 104 0)).2.1
      (by decide),
    (c8_unpack_rejects_bad_length_and_bool (List.replicate 71 0)).2.2.1
      (by decide),
    (c8_unpack_rejects_bad_length_and_bool
        ((2 : Byte) :: List.replicate 48 0)).2.2.2.1 (by decide) (by decide),
    (c8_unpack_rejects_bad_length_and_bool
        (List.replicate 72 0 ++ ((2 : Byte) :: List.replicate 32 0))).2.2.2.2
      (by decide) (by decide)⟩

/-- Claim C7 counterexample: decoding opcode 4 (DeList) with one extra
trailing byte succeeds instead of producing a decode error, so an input
longer than the fixed per-opcode size is not always rejected. -/
theorem c7_counterexample_trailing_byte_accepted :
    NFTInstruction.unpack [(4 : Byte), 0] = .ok .deList := by
  rfl

/-- Claim C7 (amended): a remaining length different from the fixed field
size is rejected only for the field-carrying opcodes: 0 requires exactly 40
bytes, 1 exactly 32, and 2, 3, 5 exactly 8; the field-less opcodes 4, 6, 7,
8 and 9 never inspect the remaining bytes and decode successfully for every
trailing suffix. -/
theorem c7_fixed_length_only_for_field_opcodes (rest : List Byte) :
    (rest.length ≠ 40 →
       resultOk (NFTInstruction.unpack ((0 : Byte) :: rest)) = false) ∧
    (rest.length ≠ 32 →
       resultOk (NFTInstruction.unpack ((1 : Byte) :: rest)) = false) ∧
    (rest.length ≠ 8 →
       resultOk (NFTInstruction.unpack ((2 : Byte) :: rest)) = false) ∧
    (rest.length ≠ 8 →
       resultOk (NFTInstruction.unpack ((3 : Byte) :: rest)) = false) ∧
    (rest.length ≠ 8 →
       resultOk (NFTInstruction.unpack ((5 : Byte) :: rest)) = false) ∧
    resultOk (NFTInstruction.unpack ((4 : Byte) :: rest)) = true ∧
    resultOk (NFTInstruction.unpack ((6 : Byte) :: rest)) = true ∧
    resultOk (NFTInstruction.unpack ((7 : Byte) :: rest)) = true ∧
    resultOk (NFTInstruction.unpack ((8 : Byte) :: rest)) = true ∧
    resultOk (NFTInstruction.unpack ((9 : Byte) :: rest)) = true := by
  refine ⟨?_, ?_, ?_, ?_, ?_, rfl, rfl, rfl, rfl, rfl⟩
  · intro h
    by_cases h32 : rest.length < 32
    · simp [NFTInstruction.unpack, h32, resultOk]
    · have h8 : ¬(rest.length - 32 = 8) := by omega
      simp [NFTInstruction.unpack, h32, h8, resultOk]
  · intro h
    simp [NFTInstruction.unpack, h, resultOk]
  · intro h
    simp [NFTInstruction.unpack, h, resultOk]
  · intro h
    simp [NFTInstruction.unpack, h, resultOk,
      show ((3 : Byte)).val = 3 from rfl]
  · intro h
    simp [NFTInstruction.unpack, h, resultOk,
      show ((5 : Byte)).val = 5 from rfl]

theorem c7_fixed_length_witness :
    resultOk (NFTInstruction.unpack ((0 : Byte) :: List.replicate 39 0))
      = false ∧
    resultOk (NFTInstruction.unpack ((4 : Byte) :: List.replicate 39 0))
      = true :=
  ⟨(c7_fixed_length_only_for_field_opcodes (List.replicate 39 0)).1
      (by decide),
    (c7_fixed_length_only_for_field_opcodes
      (List.replicate 39 0)).2.2.2.2.2.1⟩

/-- Result of the successful WithdrawBid run on the fixture. -/
def rWithdraw : WithdrawBidResult :=
  { escrow_state_lamports := 0, escrow_vault_lamports := 0
    signer_lamports := 65 }

/-- Result of the successful RefundUser run on the fixture. -/
def rRefund : RefundResult :=
  { bid_state_lamports := 0, bid_vault_lamports := 0, bidder_lamports := 60 }

/-- Claim C3: on a successful AcceptBid the signer (seller) is credited
exactly the recorded bid amount, the bidder is credited exactly the total
lamports of the two bid accounts minus the bid amount, with no fee deducted
anywhere, and the credits sum to exactly the amount removed from the two bid
accounts.  The bounds hypotheses rule out u64 wrap-around, which a prior Bid
guarantees on chain. -/
theorem c3_accept_bid_value_conservation (derive : DeriveFn)
    (splTokenId : Pubkey) (a : AcceptBidAccounts) (r : AcceptBidResult)
    (bid_state : BidEscrowState)
    (h : Processor.process_accept_bid derive splTokenId a = .ok r)
    (hbid : BidEscrowState.unpack_unchecked a.bid_state.data = .ok bid_state)
    (htotal : a.bid_vault.lamports + a.bid_state.lamports < U64MOD)
    (hamt : bid_state.amount ≤ a.bid_vault.lamports + a.bid_state.lamports)
    (hs : a.signer.lamports + bid_state.amount < U64MOD)
    (hb : a.bidder.lamports
        + (a.bid_vault.lamports + a.bid_state.lamports - bid_state.amount)
        < U64MOD) :
    r.signer_lamports = a.signer.lamports + bid_state.amount ∧
    r.bidder_lamports = a.bidder.lamports
        + (a.bid_vault.lamports + a.bid_state.lamports - bid_state.amount) ∧
    (r.signer_lamports - a.signer.lamports)
        + (r.bidder_lamports - a.bidder.lamports)
      = a.bid_vault.lamports + a.bid_state.lamports := by
  obtain ⟨ls, bs, hls, hbs, hl, hbk, hr⟩ :=
    Processor.accept_bid_ok derive splTokenId a r h
  rw [hbid] at hbs
  injection hbs with e
  subst e
  have e1 : r.signer_lamports = a.signer.lamports + bid_state.amount := by
    rw [hr]
    exact addU64_of_lt hs
  have e2 : r.bidder_lamports = a.bidder.lamports
      + (a.bid_vault.lamports + a.bid_state.lamports - bid_state.amount) := by
    rw [hr]
    show addU64 a.bidder.lamports
        (subU64 (addU64 a.bid_vault.lamports a.bid_state.lamports)
          bid_state.amount) = _
    rw [addU64_of_lt htotal, subU64_of_le hamt htotal]
    exact addU64_of_lt hb
  exact ⟨e1, e2, by omega⟩

theorem c3_value_conservation_witness :
    rAccept.signer_lamports
        = accsAccept.signer.lamports + bidRecordA.amount ∧
    rAccept.bidder_lamports
        = accsAccept.bidder.lamports
          + (accsAccept.bid_vault.lamports + accsAccept.bid_state.lamports
             - bidRecordA.amount) ∧
    (rAccept.signer_lamports - accsAccept.signer.lamports)
        + (rAccept.bidder_lamports - accsAccept.bidder.lamports)
      = accsAccept.bid_vault.lamports + accsAccept.bid_state.lamports :=
  c3_accept_bid_value_conservation deriveTest kTokenProgram accsAccept
    rAccept bidRecordA accept_run (by rfl) (by decide) (by decide)
    (by decide) (by decide)

/-- Claim C4: ClaimAssetOnSuccess succeeds only when the listing record has
success = true and the recorded buyer equals the signer; whenever the
decoded record violates either condition the embedded operation returns an
error, and in the Except model an error carries no mutation. -/
theorem c4_claim_requires_settled_and_buyer (derive : DeriveFn)
    (splTokenId : Pubkey) (a : WithdrawNftAccounts) (ls : ListEscrowState)
    (hls : ListEscrowState.unpack_unchecked a.list_state.data = .ok ls) :
    (∀ r, Processor.process_withdraw_nft_on_success derive splTokenId a
        = .ok r →
      ls.success = true ∧ ls.successful_buyer = a.signer.key) ∧
    (ls.success = false ∨ ls.successful_buyer ≠ a.signer.key →
      resultOk
          (Processor.process_withdraw_nft_on_success derive splTokenId a)
        = false) := by
  have main : ∀ r,
      Processor.process_withdraw_nft_on_success derive splTokenId a
        = .ok r →
      ls.success = true ∧ ls.successful_buyer = a.signer.key := by
    intro r h
    obtain ⟨td, ls2, htd, hls2, ho, hm, hlst, hsuc, hbuy, hr⟩ :=
      Processor.withdraw_nft_ok derive splTokenId a r h
    rw [hls] at hls2
    injection hls2 with e
    subst e
    exact ⟨hsuc, hbuy⟩
  refine ⟨main, ?_⟩
  intro hbad
  cases hp : Processor.process_withdraw_nft_on_success derive splTokenId a
    with
  | ok r =>
    rcases main r hp with ⟨h1, h2⟩
    rcases hbad with hb | hb
    · rw [h1] at hb
      exact Bool.noConfusion hb
    · exact absurd h2 hb
  | error e => rfl

theorem c4_claim_guard_witness :
    settledListing.success = true ∧
    settledListing.successful_buyer = accsClaim.signer.key :=
  (c4_claim_requires_settled_and_buyer deriveTest kTokenProgram accsClaim
      settledListing (by rfl)).1
    { list_state_lamports := 0, list_vault_lamports := 0
      lister_lamports := 14, nft_destination := kBuyerTokenAcct }
    claim_run

/-- Claim C5: each of the three bid-escrow closing operations (WithdrawBid,
AcceptBid, RefundUser) leaves both bid escrow accounts at exactly zero
lamports and credits the full held balance to its recipients: the whole
balance to the signer for WithdrawBid, a split summing to the whole balance
between seller and bidder for AcceptBid, and the whole balance to the bidder
for RefundUser.  The bounds hypotheses rule out u64 wrap-around. -/
theorem c5_closing_zeroes_and_disburses :
    (∀ (derive : DeriveFn) (programId splTokenId : Pubkey)
       (a : WithdrawBidAccounts) (r : WithdrawBidResult),
       Processor.process_withdraw_bid derive programId splTokenId a
         = .ok r →
       a.signer.lamports + a.escrow_state.lamports + a.escrow_vault.lamports
         < U64MOD →
       r.escrow_state_lamports = 0 ∧ r.escrow_vault_lamports = 0 ∧
         r.signer_lamports = a.signer.lamports
           + (a.escrow_state.lamports + a.escrow_vault.lamports)) ∧
    (∀ (derive : DeriveFn) (splTokenId : Pubkey) (a : AcceptBidAccounts)
       (r : AcceptBidResult) (bid_state : BidEscrowState),
       Processor.process_accept_bid derive splTokenId a = .ok r →
       BidEscrowState.unpack_unchecked a.bid_state.data = .ok bid_state →
       bid_state.amount ≤ a.bid_vault.lamports + a.bid_state.lamports →
       a.signer.lamports + a.bidder.lamports + a.bid_vault.lamports
           + a.bid_state.lamports < U64MOD →
       r.bid_state_lamports = 0 ∧ r.bid_vault_lamports = 0 ∧
         (r.signer_lamports - a.signer.lamports)
             + (r.bidder_lamports - a.bidder.lamports)
           = a.bid_vault.lamports + a.bid_state.lamports) ∧
    (∀ (derive : DeriveFn) (splTokenId : Pubkey) (a : RefundAccounts)
       (r : RefundResult),
       Processor.process_refund derive splTokenId a = .ok r →
       a.bidder.lamports + a.bid_state.lamports + a.bid_vault.lamports
         < U64MOD →
       r.bid_state_lamports = 0 ∧ r.bid_vault_lamports = 0 ∧
         r.bidder_lamports = a.bidder.lamports
           + (a.bid_state.lamports + a.bid_vault.lamports)) := by
  refine ⟨?_, ?_, ?_⟩
  · intro derive programId splTokenId a r h hlt
    have hr := Processor.withdraw_bid_ok derive programId splTokenId a r h
    subst hr
    refine ⟨rfl, rfl, ?_⟩
    show addU64 a.signer.lamports
        (addU64 a.escrow_state.lamports a.escrow_vault.lamports) = _
    rw [addU64_of_lt (show a.escrow_state.lamports
        + a.escrow_vault.lamports < U64MOD by omega)]
    exact addU64_of_lt (by omega)
  · intro derive splTokenId a r bid_state h hbid hamt hlt
    obtain ⟨ls, bs, hls, hbs, hl, hbk, hr⟩ :=
      Processor.accept_bid_ok derive splTokenId a r h
    rw [hbid] at hbs
    injection hbs with e
    subst e
    subst hr
    have htotal : a.bid_vault.lamports + a.bid_state.lamports < U64MOD := by
      omega
    refine ⟨rfl, rfl, ?_⟩
    show (addU64 a.signer.lamports bid_state.amount - a.signer.lamports)
        + (addU64 a.bidder.lamports
            (subU64 (addU64 a.bid_vault.lamports a.bid_state.lamports)
              bid_state.amount) - a.bidder.lamports) = _
    rw [addU64_of_lt (show a.signer.lamports + bid_state.amount < U64MOD
          by omega),
        addU64_of_lt htotal, subU64_of_le hamt htotal,
        addU64_of_lt (show a.bidder.lamports
          + (a.bid_vault.lamports + a.bid_state.lamports - bid_state.amount)
          < U64MOD by omega)]
    omega
  · intro derive splTokenId a r h hlt
    obtain ⟨st, hst, hinit, hauth, hr⟩ :=
      Processor.refund_ok derive splTokenId a r h
    subst hr
    refine ⟨rfl, rfl, ?_⟩
    show addU64 a.bidder.lamports
        (addU64 a.bid_state.lamports a.bid_vault.lamports) = _
    rw [addU64_of_lt (show a.bid_state.lamports + a.bid_vault.lamports
        < U64MOD by omega)]
    exact addU64_of_lt (by omega)

theorem c5_closing_witness :
    (rWithdraw.escrow_state_lamports = 0 ∧
      rWithdraw.escrow_vault_lamports = 0 ∧
      rWithdraw.signer_lamports = accsWithdraw.signer.lamports
        + (accsWithdraw.escrow_state.lamports
           + accsWithdraw.escrow_vault.lamports)) ∧
    (rAccept.bid_state_lamports = 0 ∧ rAccept.bid_vault_lamports = 0 ∧
      (rAccept.signer_lamports - accsAccept.signer.lamports)
          + (rAccept.bidder_lamports - accsAccept.bidder.lamports)
        = accsAccept.bid_vault.lamports + accsAccept.bid_state.lamports) ∧
    (rRefund.bid_state_lamports = 0 ∧ rRefund.bid_vault_lamports = 0 ∧
      rRefund.bidder_lamports = accsRefund.bidder.lamports
        + (accsRefund.bid_state.lamports + accsRefund.bid_vault.lamports)) :=
  ⟨c5_closing_zeroes_and_disburses.1 deriveTest kProgram kTokenProgram
      accsWithdraw rWithdraw withdraw_run (by decide),
    c5_closing_zeroes_and_disburses.2.1 deriveTest kTokenProgram accsAccept
      rAccept bidRecordA accept_run (by rfl) (by decide) (by decide),
    c5_closing_zeroes_and_disburses.2.2 deriveTest kTokenProgram accsRefund
      rRefund refund_run (by decide)⟩

/-- Claim C9: a successful AcceptBid rewrites the listing record with
amount set to the accepted bid amount, success set to true and the buyer
set to the bidder address, while the lister and mint fields keep the values
decoded from the original record. -/
theorem c9_accept_bid_rewrites_listing (derive : DeriveFn)
    (splTokenId : Pubkey) (a : AcceptBidAccounts) (r : AcceptBidResult)
    (ls : ListEscrowState) (bid_state : BidEscrowState)
    (h : Processor.process_accept_bid derive splTokenId a = .ok r)
    (hls : ListEscrowState.unpack_unchecked a.list_state.data = .ok ls)
    (hbid : BidEscrowState.unpack_unchecked a.bid_state.data
      = .ok bid_state) :
    r.list_state_data = ListEscrowState.pack_into_slice
      { lister := ls.lister, mint := ls.mint, amount := bid_state.amount
        success := true, successful_buyer := a.bidder.key } := by
  obtain ⟨ls2, bs2, hls2, hbs2, hl, hbk, hr⟩ :=
    Processor.accept_bid_ok derive splTokenId a r h
  rw [hls] at hls2
  injection hls2 with e1
  subst e1
  rw [hbid] at hbs2
  injection hbs2 with e2
  subst e2
  rw [hr]

theorem c9_rewrites_witness :
    rAccept.list_state_data = ListEscrowState.pack_into_slice
      { lister := freshListing.lister, mint := freshListing.mint
        amount := bidRecordA.amount, success := true
        successful_buyer := accsAccept.bidder.key } :=
  c9_accept_bid_rewrites_listing deriveTest kTokenProgram accsAccept rAccept
    freshListing bidRecordA accept_run (by rfl) (by rfl)

/-- Claim C10: on a successful AcceptBid the bidder refund is the wrapping
u64 subtraction of the bid amount from the combined bid account balance;
when the accounts hold at least the bid amount the wrap never triggers and
the refund is the exact difference, while when they hold less the
subtraction underflows to total + 2 ^ 64 - amount. -/
theorem c10_refund_unchecked_subtraction (derive : DeriveFn)
    (splTokenId : Pubkey) (a : AcceptBidAccounts) (r : AcceptBidResult)
    (bid_state : BidEscrowState)
    (h : Processor.process_accept_bid derive splTokenId a = .ok r)
    (hbid : BidEscrowState.unpack_unchecked a.bid_state.data
      = .ok bid_state) :
    r.bidder_lamports = addU64 a.bidder.lamports
        (subU64 (addU64 a.bid_vault.lamports a.bid_state.lamports)
          bid_state.amount) ∧
    (bid_state.amount ≤ addU64 a.bid_vault.lamports a.bid_state.lamports →
      subU64 (addU64 a.bid_vault.lamports a.bid_state.lamports)
          bid_state.amount
        = addU64 a.bid_vault.lamports a.bid_state.lamports
          - bid_state.amount) ∧
    (addU64 a.bid_vault.lamports a.bid_state.lamports < bid_state.amount →
      subU64 (addU64 a.bid_vault.lamports a.bid_state.lamports)
          bid_state.amount
        = addU64 a.bid_vault.lamports a.bid_state.lamports + U64MOD
          - bid_state.amount) := by
  obtain ⟨ls, bs, hls, hbs, hl, hbk, hr⟩ :=
    Processor.accept_bid_ok derive splTokenId a r h
  rw [hbid] at hbs
  injection hbs with e
  subst e
  have hamtlt : bid_state.amount < U64MOD :=
    BidEscrowState.unpack_amount_lt _ _ hbid
  have hTlt : addU64 a.bid_vault.lamports a.bid_state.lamports < U64MOD :=
    addU64_lt _ _
  refine ⟨?_, ?_, ?_⟩
  · rw [hr]
  · intro hle
    exact subU64_of_le hle hTlt
  · intro hlt
    exact subU64_of_lt hlt hamtlt

theorem c10_subtraction_witness :
    subU64 (addU64 accsAccept.bid_vault.lamports
        accsAccept.bid_state.lamports) bidRecordA.amount
      = addU64 accsAccept.bid_vault.lamports accsAccept.bid_state.lamports
        - bidRecordA.amount ∧
    subU64 (addU64 accsAcceptUnder.bid_vault.lamports
        accsAcceptUnder.bid_state.lamports) bidRecordU.amount
      = addU64 accsAcceptUnder.bid_vault.lamports
          accsAcceptUnder.bid_state.lamports + U64MOD - bidRecordU.amount :=
  ⟨(c10_refund_unchecked_subtraction deriveTest kTokenProgram accsAccept
      rAccept bidRecordA accept_run (by rfl)).2.1 (by decide),
    (c10_refund_unchecked_subtraction deriveTest kTokenProgram
      accsAcceptUnder rAcceptUnder bidRecordU accept_under_run
      (by rfl)).2.2 (by decide)⟩
